import Mathlib

/-
  Verification development for the nextdns-go client library.

  The Go source is embedded shallowly: each Go function used by the
  specification claims is translated into an executable Lean definition.
  Go `url.Values` (a map from keys to values, written by `Set` and read by
  `Get`/`Encode`) is modelled as an association list where `Set` replaces
  any existing binding of the key; `Encode` sorts the keys, as in Go.
  Go `int` is modelled as `Int`; a nil pointer argument is `Option.none`.

  Parts of the repository that the claims depend on but whose source file
  is not available (the client core: `New`, the functional options,
  `newRequest` / `newRequestWithQuery`, `do` and its status-based error
  classification) are modelled from the specification; each such
  definition carries a doc comment starting with `Modelled from the spec:`.
-/

namespace NextDNS

/-- Association-list model of Go `url.Values` as used by this library:
every key is bound to at most one value (the builders only use `Set`). -/
abbrev Values := List (String × String)

namespace Values

/-- Go `url.Values.Set`: replaces any binding of `k` with the single value `v`
(the new binding is appended after the remaining ones). -/
def set : Values → String → String → Values
  | [], k, v => [(k, v)]
  | p :: ps, k, v => if p.1 = k then set ps k v else p :: set ps k v

/-- Whether a key is present in the values. -/
def hasKey (q : Values) (k : String) : Bool :=
  q.any (fun p => p.1 = k)

/-- Go `url.Values.Get`: the value bound to `k`, if any. -/
def get : Values → String → Option String
  | [], _ => none
  | p :: ps, k => if p.1 = k then some p.2 else get ps k

/-- Bytewise lexicographic comparison of key characters, as Go sorts the
keys of `url.Values.Encode` (the keys used here are plain ASCII). -/
def leChars : List Char → List Char → Bool
  | [], _ => true
  | _ :: _, [] => false
  | c :: cs, d :: ds =>
    if c.toNat < d.toNat then true
    else if d.toNat < c.toNat then false
    else leChars cs ds

/-- Bytewise lexicographic comparison of keys, for `encode`. -/
def keyLe (a b : String) : Bool := leChars a.data b.data

/-- Insertion of a pair into a key-sorted list, for `encode`. -/
def insertSorted (p : String × String) : Values → Values
  | [] => [p]
  | q :: qs => if keyLe p.1 q.1 then p :: q :: qs else q :: insertSorted p qs

/-- Sorting by key, as Go `url.Values.Encode` sorts the keys. -/
def sortByKey : Values → Values
  | [] => []
  | p :: ps => insertSorted p (sortByKey ps)

/-- Go `url.Values.Encode`: key-sorted `k=v` pairs joined with ampersands.
The values appearing in this development need no percent-escaping. -/
def encode (q : Values) : String :=
  String.intercalate "&" ((sortByKey q).map (fun p => p.1 ++ "=" ++ p.2))

@[simp]
theorem hasKey_nil (k : String) : hasKey [] k = false := rfl

@[simp]
theorem hasKey_append (q r : Values) (k : String) :
    hasKey (q ++ r) k = (hasKey q k || hasKey r k) := by
  simp [hasKey, List.any_append]

@[simp]
theorem hasKey_set (q : Values) (k v k' : String) :
    hasKey (set q k v) k' = if k' = k then true else hasKey q k' := by
  induction q with
  | nil => by_cases h : k' = k <;> simp_all [set, hasKey, eq_comm]
  | cons p ps ih =>
    by_cases hp : p.1 = k <;> by_cases hk : p.1 = k' <;> by_cases h : k' = k <;>
      simp_all [set, hasKey]

@[simp]
theorem get_nil (k : String) : get [] k = none := rfl

@[simp]
theorem get_set (q : Values) (k v k' : String) :
    get (set q k v) k' = if k' = k then some v else get q k' := by
  induction q with
  | nil => by_cases h : k' = k <;> simp_all [set, get, eq_comm]
  | cons p ps ih =>
    by_cases hp : p.1 = k <;> by_cases hk : p.1 = k' <;> by_cases h : k' = k <;>
      simp_all [set, get]

end Values

/-! ## Query option types and builders (from `analytics.go` and the logs file) -/

/-- `AnalyticsOptions` from `analytics.go`: common parameters for all
analytics endpoints (fields From, To, Limit, Cursor, Device). -/
structure AnalyticsOptions where
  From : String
  To : String
  Limit : Int
  Cursor : String
  Device : String

/-- `AnalyticsTimeSeriesOptions` from `analytics.go`: extends
`AnalyticsOptions` (embedded) with time series parameters. -/
structure AnalyticsTimeSeriesOptions where
  AnalyticsOptions : AnalyticsOptions
  Interval : String
  Alignment : String
  Timezone : String
  Partials : String

/-- `LogsQueryOptions` from the logs source file: parameters for querying logs. -/
structure LogsQueryOptions where
  From : String
  To : String
  «Sort» : String
  Limit : Int
  Cursor : String
  Device : String
  Status : String
  Search : String
  Raw : Bool

/-- `buildAnalyticsQuery` from `analytics.go`: converts `*AnalyticsOptions`
to `url.Values`; a nil pointer yields the empty values. -/
def buildAnalyticsQuery : Option AnalyticsOptions → Values
  | none => []
  | some opts =>
    let query : Values := []
    let query := if opts.From ≠ "" then query.set "from" opts.From else query
    let query := if opts.To ≠ "" then query.set "to" opts.To else query
    let query := if opts.Limit > 0 then query.set "limit" (toString opts.Limit) else query
    let query := if opts.Cursor ≠ "" then query.set "cursor" opts.Cursor else query
    let query := if opts.Device ≠ "" then query.set "device" opts.Device else query
    query

/-- `buildTimeSeriesQuery` from `analytics.go`: renders the embedded base
options first, then the time series parameters. -/
def buildTimeSeriesQuery : Option AnalyticsTimeSeriesOptions → Values
  | none => []
  | some opts =>
    let query := buildAnalyticsQuery (some opts.AnalyticsOptions)
    let query := if opts.Interval ≠ "" then query.set "interval" opts.Interval else query
    let query := if opts.Alignment ≠ "" then query.set "alignment" opts.Alignment else query
    let query := if opts.Timezone ≠ "" then query.set "timezone" opts.Timezone else query
    let query := if opts.Partials ≠ "" then query.set "partials" opts.Partials else query
    query

/-- `buildLogsQuery` from the logs source file: converts `*LogsQueryOptions`
to `url.Values`; a nil pointer yields the empty values. -/
def buildLogsQuery : Option LogsQueryOptions → Values
  | none => []
  | some opts =>
    let query : Values := []
    let query := if opts.From ≠ "" then query.set "from" opts.From else query
    let query := if opts.To ≠ "" then query.set "to" opts.To else query
    let query := if opts.«Sort» ≠ "" then query.set "sort" opts.«Sort» else query
    let query := if opts.Limit > 0 then query.set "limit" (toString opts.Limit) else query
    let query := if opts.Cursor ≠ "" then query.set "cursor" opts.Cursor else query
    let query := if opts.Device ≠ "" then query.set "device" opts.Device else query
    let query := if opts.Status ≠ "" then query.set "status" opts.Status else query
    let query := if opts.Search ≠ "" then query.set "search" opts.Search else query
    let query := if opts.Raw then query.set "raw" "true" else query
    query

/-! ## Error taxonomy (from `errors.go`) -/

/-- `ErrorType` from `errors.go`: a string-typed code classifying an error. -/
abbrev ErrorType := String

/-- Internal service error. -/
def ErrorTypeServiceError : ErrorType := "service_error"

/-- Regular request error. -/
def ErrorTypeRequest : ErrorType := "request"

/-- Response body is malformed. -/
def ErrorTypeMalformed : ErrorType := "malformed"

/-- Authentication error. -/
def ErrorTypeAuthentication : ErrorType := "authentication"

/-- Resource not found. -/
def ErrorTypeNotFound : ErrorType := "not_found"

/-- Message constant `errInternalServiceError` from `errors.go`. -/
def errInternalServiceError : String := "internal service error received"

/-- Message constant `errResponseError` from `errors.go`. -/
def errResponseError : String := "response error received"

/-- Message constant `errMalformedError` from `errors.go`. -/
def errMalformedError : String := "malformed response body received"

/-- The message of `ErrEmptyAPIToken` from `errors.go`. -/
def ErrEmptyAPIToken : String := "api key must not be empty"

/-- The `source` object of one entry of `ErrorResponse` from `errors.go`. -/
structure ErrorSource where
  Parameter : String
deriving Repr, DecidableEq

/-- One entry of the `errors` array of `ErrorResponse` from `errors.go`. -/
structure ErrorResponseEntry where
  Code : String
  Detail : String
  Source : ErrorSource
deriving Repr, DecidableEq

/-- `ErrorResponse` from `errors.go`: the error response from the NextDNS API. -/
structure ErrorResponse where
  Errors : List ErrorResponseEntry
deriving Repr, DecidableEq

/-- `Error` from `errors.go`: the error from the Client. The Go field `Type`
is rendered as `type`, since `Type` is reserved in Lean. A nil `Errors`
pointer is `Option.none`. -/
structure Error where
  type : ErrorType
  Message : String
  Errors : Option ErrorResponse
  Meta : List (String × String)
deriving Repr, DecidableEq

/-- `APIError` from `errors.go`: a single error from the NextDNS API. -/
structure APIError where
  Code : String
  Detail : String
  Parameter : String
deriving Repr, DecidableEq

/-- A Go `error` value as received by `APIError.Is`: either another
`*APIError`, or an error of some other dynamic type, for which the type
assertion inside `Is` fails. -/
inductive GoError where
  | api (e : APIError)
  | other (msg : String)

/-- `APIError.Is` from `errors.go`: reports whether the error matches the
target by comparing error codes; a non-`*APIError` target never matches. -/
def APIError.Is (e : APIError) : GoError → Bool
  | GoError.api t => e.Code = t.Code
  | GoError.other _ => false

/-- `Error.Unwrap` from `errors.go`: the underlying API errors, one
`APIError` per entry of the embedded `ErrorResponse` (empty when absent). -/
def Error.Unwrap (e : Error) : List APIError :=
  match e.Errors with
  | none => []
  | some r => r.Errors.map (fun er => ⟨er.Code, er.Detail, er.Source.Parameter⟩)

/-! ## Client core

The file defining the client core (`New`, the functional options,
`newRequest` / `newRequestWithQuery`, `do` and its response handling) is
not among the available sources; only its tests and its callers are.
The definitions below are therefore modelled from the specification
(sections 4.1, 4.2, 4.4, 4.5 and the tests quoted by the spec). -/

/-- The default base URL of the API, as asserted by the client tests. -/
def defaultBaseURL : String := "https://api.nextdns.io/"

/-- The configured client: base URL, optional API token, debug flag. -/
structure Client where
  baseURL : String
  apiKey : Option String
  Debug : Bool
deriving Repr, DecidableEq

/-- Modelled from the spec: `New` with the `WithAPIKey` functional option
(client core, not under the available sources). Supplying the option with
an empty token fails with `ErrEmptyAPIToken`; omitting it yields an
unauthenticated client (spec section 3, ClientConfiguration invariant). -/
def New (apiKeyOption : Option String) : Except String Client :=
  match apiKeyOption with
  | some key =>
    if key = "" then Except.error ErrEmptyAPIToken
    else Except.ok ⟨defaultBaseURL, some key, false⟩
  | none => Except.ok ⟨defaultBaseURL, none, false⟩

/-- The response envelope, as far as error handling observes it: the
`errors` array and the pagination cursor of `meta` (spec section 6). -/
structure Envelope where
  errors : List ErrorResponseEntry
  cursor : String
deriving Repr, DecidableEq

/-- A raw response body: empty, non-empty but not valid JSON for the
envelope shape, or a well-formed envelope. -/
inductive Body where
  | empty
  | invalid
  | wellFormed (env : Envelope)

/-- Modelled from the spec: the envelope codec (spec section 4.2). An empty
body is a valid, empty envelope; a non-empty body that fails to parse is
malformed and yields no envelope. -/
def decodeEnvelope : Body → Option Envelope
  | Body.empty => some ⟨[], ""⟩
  | Body.invalid => none
  | Body.wellFormed env => some env

/-- Modelled from the spec: the status-to-kind table of the error taxonomy
(spec section 4.1) for non-2xx statuses. -/
def errorTypeForStatus (status : Nat) : ErrorType :=
  if status = 401 ∨ status = 403 then ErrorTypeAuthentication
  else if status = 404 then ErrorTypeNotFound
  else if 500 ≤ status then ErrorTypeServiceError
  else ErrorTypeRequest

/-- Modelled from the spec: the message attached to a status-classified
error, using the message constants of `errors.go`. -/
def messageForStatus (status : Nat) : String :=
  if 500 ≤ status then errInternalServiceError else errResponseError

/-- Modelled from the spec: the response handling of the client core
(spec sections 4.1, 4.2, 4.5). Decode failure wins and yields `Malformed`;
a 2xx envelope with business errors yields a `Request` error carrying the
entries; a 2xx envelope without errors is a success (no error); any other
status is classified by `errorTypeForStatus`, with the envelope entries
attached. -/
def handleResponse (status : Nat) (body : Body) : Option Error :=
  match decodeEnvelope body with
  | none => some ⟨ErrorTypeMalformed, errMalformedError, none, []⟩
  | some env =>
    if 200 ≤ status ∧ status < 300 then
      if env.errors.isEmpty then none
      else some ⟨ErrorTypeRequest, errResponseError, some ⟨env.errors⟩, []⟩
    else
      some ⟨errorTypeForStatus status, messageForStatus status, some ⟨env.errors⟩, []⟩

/-- Modelled from the spec: the URL assembled by `newRequestWithQuery`
(spec section 4.4 and the client tests): base URL + path, with the encoded
query appended after a question mark only when the query is non-empty. -/
def newRequestWithQueryURL (baseURL path : String) (query : Values) : String :=
  if query.isEmpty then baseURL ++ path
  else baseURL ++ path ++ "?" ++ Values.encode query

/-- Modelled from the spec: the URL assembled by `newRequest` (no query). -/
def newRequestURL (baseURL path : String) : String := baseURL ++ path

/-! ## Profiles service (from the profiles source file) -/

/-- `profilesAPIPath` from the profiles source file. -/
def profilesAPIPath : String := "profiles"

/-- `ListProfileRequest` from the profiles source file. -/
structure ListProfileRequest where
  Cursor : String
deriving Repr, DecidableEq

/-- `Profiles` from the profiles source file: one profile of a listing. -/
structure Profiles where
  ID : String
  Fingerprint : String
  Name : String
deriving Repr, DecidableEq

/-- The `pagination` object of the `meta` of `profilesResponse`. -/
structure paginationMeta where
  Cursor : String
deriving Repr, DecidableEq

/-- The `meta` object of `profilesResponse`. -/
structure profilesMetadata where
  Pagination : paginationMeta
deriving Repr, DecidableEq

/-- `profilesResponse` from the profiles source file. -/
structure profilesResponse where
  Profiles : List Profiles
  Metadata : profilesMetadata
  Errors : ErrorResponse
deriving Repr, DecidableEq

/-- `ListProfilesResponse` from the profiles source file. -/
structure ListProfilesResponse where
  Profiles : List Profiles
  Cursor : String
deriving Repr, DecidableEq

/-- The query of the request built by `profilesService.List`: a `cursor`
parameter exactly when the request pointer is non-nil and carries a
non-empty cursor (the source guard `request != nil && request.Cursor != ""`). -/
def profilesList_query (request : Option ListProfileRequest) : Values :=
  match request with
  | some r => if r.Cursor ≠ "" then Values.set [] "cursor" r.Cursor else []
  | none => []

/-- The URL of the request built by `profilesService.List`. -/
def profilesList_url (c : Client) (request : Option ListProfileRequest) : String :=
  match request with
  | some r =>
    if r.Cursor ≠ "" then
      newRequestWithQueryURL c.baseURL profilesAPIPath (Values.set [] "cursor" r.Cursor)
    else newRequestURL c.baseURL profilesAPIPath
  | none => newRequestURL c.baseURL profilesAPIPath

/-- The value returned by `profilesService.List` on a decoded response:
the profiles of `data` paired with the cursor of `meta.pagination`. -/
def profilesList_result (response : profilesResponse) : ListProfilesResponse :=
  ⟨response.Profiles, response.Metadata.Pagination.Cursor⟩

/-! ## Claim theorems -/

/-- C1: for every response whose HTTP status is in the success range (2xx)
and whose well-formed envelope carries one or more business-error entries,
the call returns a non-nil classified error of kind Request carrying those
entries; it never returns a zero value silently. -/
theorem success_with_business_errors_is_request_error
    (status : Nat) (env : Envelope)
    (h2xx : 200 ≤ status ∧ status < 300) (hne : env.errors ≠ []) :
    handleResponse status (Body.wellFormed env) =
      some ⟨ErrorTypeRequest, errResponseError, some ⟨env.errors⟩, []⟩ := by
  have hempty : env.errors.isEmpty = false := by
    cases h : env.errors with
    | nil => exact absurd h hne
    | cons a l => simp [List.isEmpty]
  simp [handleResponse, decodeEnvelope, h2xx, hempty]

/-- Witness for C1: a 200 response whose envelope carries the entry with
code duplicate is reported as a Request error carrying that entry. -/
theorem success_with_business_errors_is_request_error_witness :
    handleResponse 200
        (Body.wellFormed ⟨[⟨"duplicate", "Entry already exists", ⟨""⟩⟩], ""⟩) =
      some ⟨ErrorTypeRequest, errResponseError,
        some ⟨[⟨"duplicate", "Entry already exists", ⟨""⟩⟩]⟩, []⟩ :=
  success_with_business_errors_is_request_error 200
    ⟨[⟨"duplicate", "Entry already exists", ⟨""⟩⟩], ""⟩
    (by constructor <;> decide) (by decide)

/-- C2: for every response whose body decodes successfully as the envelope,
the classified error kind is a function of the HTTP status alone: 401 or
403 yields Authentication, 404 yields NotFound, any other 4xx yields
Request, and any 5xx yields ServiceError. -/
theorem status_determines_error_kind
    (status : Nat) (body : Body) (env : Envelope)
    (hdec : decodeEnvelope body = some env) :
    ((status = 401 ∨ status = 403) →
      (handleResponse status body).map Error.type = some ErrorTypeAuthentication) ∧
    (status = 404 →
      (handleResponse status body).map Error.type = some ErrorTypeNotFound) ∧
    (400 ≤ status → status < 500 → status ≠ 401 → status ≠ 403 → status ≠ 404 →
      (handleResponse status body).map Error.type = some ErrorTypeRequest) ∧
    (500 ≤ status → status < 600 →
      (handleResponse status body).map Error.type = some ErrorTypeServiceError) := by
  refine ⟨?_, ?_, ?_, ?_⟩
  · intro h
    have hnot2xx : ¬(200 ≤ status ∧ status < 300) := by omega
    simp [handleResponse, hdec, hnot2xx, errorTypeForStatus, h]
  · intro h
    subst h
    simp [handleResponse, hdec, errorTypeForStatus]
  · intro h400 h500 h401 h403 h404
    have hnot2xx : ¬(200 ≤ status ∧ status < 300) := by omega
    have hor : ¬(status = 401 ∨ status = 403) := by omega
    have h5 : ¬(500 ≤ status) := by omega
    simp [handleResponse, hdec, hnot2xx, errorTypeForStatus, hor, h404, h5]
  · intro h500 h600
    have hnot2xx : ¬(200 ≤ status ∧ status < 300) := by omega
    have hor : ¬(status = 401 ∨ status = 403) := by omega
    have h404 : status ≠ 404 := by omega
    simp [handleResponse, hdec, hnot2xx, errorTypeForStatus, hor, h404, h500]

/-- Witness for C2: a well-formed 403 response is classified as an
Authentication error. -/
theorem status_determines_error_kind_witness :
    (handleResponse 403 (Body.wellFormed ⟨[⟨"forbidden", "Access denied", ⟨""⟩⟩], ""⟩)).map
        Error.type = some ErrorTypeAuthentication :=
  (status_determines_error_kind 403
    (Body.wellFormed ⟨[⟨"forbidden", "Access denied", ⟨""⟩⟩], ""⟩)
    ⟨[⟨"forbidden", "Access denied", ⟨""⟩⟩], ""⟩ rfl).1 (Or.inr rfl)

/-- C3: for every response whose non-empty body fails to parse as the JSON
envelope, the call returns a classified error of kind Malformed, for every
HTTP status code including 2xx; decode failure takes priority over
status-derived classification. -/
theorem malformed_body_always_yields_malformed_error (status : Nat) :
    handleResponse status Body.invalid =
      some ⟨ErrorTypeMalformed, errMalformedError, none, []⟩ := rfl

/-- C4: a response with an empty body (such as a 204 No Content answer to a
delete call) is decoded by the envelope codec as a valid, empty envelope,
not as malformed, and the caller observes no error. -/
theorem empty_body_is_valid_empty_envelope :
    decodeEnvelope Body.empty = some ⟨[], ""⟩ ∧
    handleResponse 204 Body.empty = none := ⟨rfl, rfl⟩

/-- C8: client construction with an authentication-token option whose value
is the empty string fails with ErrEmptyAPIToken and produces no client;
construction with the token option omitted entirely succeeds and yields an
unauthenticated client. -/
theorem new_client_empty_token_fails :
    New (some "") = Except.error ErrEmptyAPIToken ∧
    (∀ c : Client, New (some "") ≠ Except.ok c) ∧
    New none = Except.ok ⟨defaultBaseURL, none, false⟩ := by
  refine ⟨rfl, ?_, rfl⟩
  intro c h
  simp [New] at h

/-- C9: for every pair of APIError values, the matching relation holds iff
their Code fields are equal, irrespective of Detail and Parameter; it is an
equivalence relation keyed on the code alone, and entries with different
codes never match. -/
theorem apierror_is_iff_code_eq :
    (∀ e t : APIError, APIError.Is e (GoError.api t) = true ↔ e.Code = t.Code) ∧
    (∀ e : APIError, APIError.Is e (GoError.api e) = true) ∧
    (∀ e t : APIError, APIError.Is e (GoError.api t) = APIError.Is t (GoError.api e)) ∧
    (∀ a b c : APIError, APIError.Is a (GoError.api b) = true →
      APIError.Is b (GoError.api c) = true → APIError.Is a (GoError.api c) = true) := by
  refine ⟨?_, ?_, ?_, ?_⟩
  · intro e t
    simp [APIError.Is]
  · intro e
    simp [APIError.Is]
  · intro e t
    simp [APIError.Is, eq_comm]
  · intro a b c hab hbc
    simp [APIError.Is] at *
    exact hab.trans hbc

/-- Witness for C9: two entries with the code duplicate but different
details match. -/
theorem apierror_is_iff_code_eq_witness :
    APIError.Is ⟨"duplicate", "Entry already exists", ""⟩
      (GoError.api ⟨"duplicate", "", ""⟩) = true :=
  (apierror_is_iff_code_eq.1 ⟨"duplicate", "Entry already exists", ""⟩
    ⟨"duplicate", "", ""⟩).mpr rfl

/-- C6: encoding the options value with From set to -7d and Limit set to
100 over a GET request to profiles/abc123/analytics/status yields exactly
the query string from=-7d&limit=100 after the question mark, and encoding
an absent (nil) or empty options object yields a URL with no question-mark
suffix at all. -/
theorem analytics_query_url_roundtrip :
    newRequestWithQueryURL defaultBaseURL "profiles/abc123/analytics/status"
        (buildAnalyticsQuery (some ⟨"-7d", "", 100, "", ""⟩)) =
      "https://api.nextdns.io/profiles/abc123/analytics/status?from=-7d&limit=100" ∧
    newRequestWithQueryURL defaultBaseURL "profiles/abc123/analytics/status"
        (buildAnalyticsQuery none) =
      "https://api.nextdns.io/profiles/abc123/analytics/status" ∧
    newRequestWithQueryURL defaultBaseURL "profiles/abc123/analytics/status"
        (buildAnalyticsQuery (some ⟨"", "", 0, "", ""⟩)) =
      "https://api.nextdns.io/profiles/abc123/analytics/status" := by
  refine ⟨?_, ?_, ?_⟩ <;> decide

/-- C7: a list call with an absent or empty cursor sends no cursor query
parameter; with a non-empty cursor c it sends exactly cursor=c; and the
cursor of the response meta.pagination is surfaced verbatim to the caller
(so the empty string is the signal for no further pages, independently of
the returned item list). -/
theorem profiles_list_pagination_contract :
    (profilesList_query none = [] ∧ profilesList_query (some ⟨""⟩) = []) ∧
    (∀ c : String, c ≠ "" → profilesList_query (some ⟨c⟩) = [("cursor", c)]) ∧
    (∀ response : profilesResponse,
      (profilesList_result response).Cursor = response.Metadata.Pagination.Cursor ∧
      (profilesList_result response).Profiles = response.Profiles) := by
  refine ⟨⟨rfl, rfl⟩, ?_, ?_⟩
  · intro c hc
    simp [profilesList_query, hc, Values.set]
  · intro r
    exact ⟨rfl, rfl⟩

/-- Witness for C7: the cursor page2_cursor is sent as exactly the
parameter cursor=page2_cursor. -/
theorem profiles_list_pagination_contract_witness :
    profilesList_query (some ⟨"page2_cursor"⟩) = [("cursor", "page2_cursor")] :=
  profiles_list_pagination_contract.2.1 "page2_cursor" (by decide)

/-- C10: Profiles.List accepts a nil request pointer without panicking: a
nil request builds exactly the request of an empty-cursor request — no
cursor parameter and the same URL — and the profiles and outgoing cursor of
the page are returned normally. -/
theorem profiles_list_nil_request :
    profilesList_query none = profilesList_query (some ⟨""⟩) ∧
    (profilesList_query none).hasKey "cursor" = false ∧
    (∀ c : Client, profilesList_url c none = profilesList_url c (some ⟨""⟩)) ∧
    (∀ response : profilesResponse,
      profilesList_result response =
        ⟨response.Profiles, response.Metadata.Pagination.Cursor⟩) :=
  ⟨rfl, rfl, fun _ => rfl, fun _ => rfl⟩

/-- Pushing `hasKey` through a conditional query. -/
theorem hasKey_ite (c : Prop) [Decidable c] (q r : Values) (k : String) :
    Values.hasKey (if c then q else r) k =
      if c then Values.hasKey q k else Values.hasKey r k := by
  split <;> rfl

/-- Pushing `get` through a conditional query. -/
theorem get_ite (c : Prop) [Decidable c] (q r : Values) (k : String) :
    Values.get (if c then q else r) k =
      if c then Values.get q k else Values.get r k := by
  split <;> rfl

/-- C5 counterexample: a negative Limit is a non-zero field, yet neither
buildAnalyticsQuery nor buildLogsQuery emits a limit parameter for it (the
source guards are strictly positive), so a parameter is not emitted for
every non-zero field. -/
theorem negative_limit_not_rendered :
    ((-1 : Int) ≠ 0) ∧
    (buildAnalyticsQuery (some ⟨"", "", -1, "", ""⟩)).hasKey "limit" = false ∧
    (buildLogsQuery (some ⟨"", "", "", -1, "", "", "", "", false⟩)).hasKey "limit" = false := by
  refine ⟨by decide, by decide, by decide⟩

/-- C5 amended: for every options object (AnalyticsOptions,
AnalyticsTimeSeriesOptions, LogsQueryOptions) the query builder emits a
parameter for a string field iff the field is non-empty, for the boolean
Raw field iff it is true — rendered as the literal string true and never
rendered when false — and for the integer Limit field iff it is strictly
positive (zero and negative limits are omitted). -/
theorem query_builders_emit_exactly_set_fields
    (a : AnalyticsOptions) (t : AnalyticsTimeSeriesOptions) (l : LogsQueryOptions) :
    ((buildAnalyticsQuery (some a)).hasKey "from" = true ↔ a.From ≠ "") ∧
    ((buildAnalyticsQuery (some a)).hasKey "to" = true ↔ a.To ≠ "") ∧
    ((buildAnalyticsQuery (some a)).hasKey "limit" = true ↔ 0 < a.Limit) ∧
    ((buildAnalyticsQuery (some a)).hasKey "cursor" = true ↔ a.Cursor ≠ "") ∧
    ((buildAnalyticsQuery (some a)).hasKey "device" = true ↔ a.Device ≠ "") ∧
    ((buildTimeSeriesQuery (some t)).hasKey "from" = true ↔ t.AnalyticsOptions.From ≠ "") ∧
    ((buildTimeSeriesQuery (some t)).hasKey "to" = true ↔ t.AnalyticsOptions.To ≠ "") ∧
    ((buildTimeSeriesQuery (some t)).hasKey "limit" = true ↔ 0 < t.AnalyticsOptions.Limit) ∧
    ((buildTimeSeriesQuery (some t)).hasKey "cursor" = true ↔ t.AnalyticsOptions.Cursor ≠ "") ∧
    ((buildTimeSeriesQuery (some t)).hasKey "device" = true ↔ t.AnalyticsOptions.Device ≠ "") ∧
    ((buildTimeSeriesQuery (some t)).hasKey "interval" = true ↔ t.Interval ≠ "") ∧
    ((buildTimeSeriesQuery (some t)).hasKey "alignment" = true ↔ t.Alignment ≠ "") ∧
    ((buildTimeSeriesQuery (some t)).hasKey "timezone" = true ↔ t.Timezone ≠ "") ∧
    ((buildTimeSeriesQuery (some t)).hasKey "partials" = true ↔ t.Partials ≠ "") ∧
    ((buildLogsQuery (some l)).hasKey "from" = true ↔ l.From ≠ "") ∧
    ((buildLogsQuery (some l)).hasKey "to" = true ↔ l.To ≠ "") ∧
    ((buildLogsQuery (some l)).hasKey "sort" = true ↔ l.«Sort» ≠ "") ∧
    ((buildLogsQuery (some l)).hasKey "limit" = true ↔ 0 < l.Limit) ∧
    ((buildLogsQuery (some l)).hasKey "cursor" = true ↔ l.Cursor ≠ "") ∧
    ((buildLogsQuery (some l)).hasKey "device" = true ↔ l.Device ≠ "") ∧
    ((buildLogsQuery (some l)).hasKey "status" = true ↔ l.Status ≠ "") ∧
    ((buildLogsQuery (some l)).hasKey "search" = true ↔ l.Search ≠ "") ∧
    ((buildLogsQuery (some l)).hasKey "raw" = true ↔ l.Raw = true) ∧
    (buildLogsQuery (some l)).get "raw" = (if l.Raw then some "true" else none) := by
  refine ⟨?_, ?_, ?_, ?_, ?_, ?_, ?_, ?_, ?_, ?_, ?_, ?_, ?_, ?_, ?_, ?_, ?_, ?_, ?_, ?_,
    ?_, ?_, ?_, ?_⟩
  · by_cases h : a.From = "" <;> simp [buildAnalyticsQuery, hasKey_ite, h]
  · by_cases h : a.To = "" <;> simp [buildAnalyticsQuery, hasKey_ite, h]
  · by_cases h : 0 < a.Limit <;> simp [buildAnalyticsQuery, hasKey_ite, h]
  · by_cases h : a.Cursor = "" <;> simp [buildAnalyticsQuery, hasKey_ite, h]
  · by_cases h : a.Device = "" <;> simp [buildAnalyticsQuery, hasKey_ite, h]
  · by_cases h : t.AnalyticsOptions.From = "" <;>
      simp [buildTimeSeriesQuery, buildAnalyticsQuery, hasKey_ite, h]
  · by_cases h : t.AnalyticsOptions.To = "" <;>
      simp [buildTimeSeriesQuery, buildAnalyticsQuery, hasKey_ite, h]
  · by_cases h : 0 < t.AnalyticsOptions.Limit <;>
      simp [buildTimeSeriesQuery, buildAnalyticsQuery, hasKey_ite, h]
  · by_cases h : t.AnalyticsOptions.Cursor = "" <;>
      simp [buildTimeSeriesQuery, buildAnalyticsQuery, hasKey_ite, h]
  · by_cases h : t.AnalyticsOptions.Device = "" <;>
      simp [buildTimeSeriesQuery, buildAnalyticsQuery, hasKey_ite, h]
  · by_cases h : t.Interval = "" <;>
      simp [buildTimeSeriesQuery, buildAnalyticsQuery, hasKey_ite, h]
  · by_cases h : t.Alignment = "" <;>
      simp [buildTimeSeriesQuery, buildAnalyticsQuery, hasKey_ite, h]
  · by_cases h : t.Timezone = "" <;>
      simp [buildTimeSeriesQuery, buildAnalyticsQuery, hasKey_ite, h]
  · by_cases h : t.Partials = "" <;>
      simp [buildTimeSeriesQuery, buildAnalyticsQuery, hasKey_ite, h]
  · by_cases h : l.From = "" <;> simp [buildLogsQuery, hasKey_ite, h]
  · by_cases h : l.To = "" <;> simp [buildLogsQuery, hasKey_ite, h]
  · by_cases h : l.«Sort» = "" <;> simp [buildLogsQuery, hasKey_ite, h]
  · by_cases h : 0 < l.Limit <;> simp [buildLogsQuery, hasKey_ite, h]
  · by_cases h : l.Cursor = "" <;> simp [buildLogsQuery, hasKey_ite, h]
  · by_cases h : l.Device = "" <;> simp [buildLogsQuery, hasKey_ite, h]
  · by_cases h : l.Status = "" <;> simp [buildLogsQuery, hasKey_ite, h]
  · by_cases h : l.Search = "" <;> simp [buildLogsQuery, hasKey_ite, h]
  · by_cases h : l.Raw <;> simp [buildLogsQuery, hasKey_ite, h]
  · by_cases h : l.Raw <;> simp [buildLogsQuery, get_ite, h]

end NextDNS

example : NextDNS.buildAnalyticsQuery (some ⟨"-7d", "", 100, "", ""⟩) =
    [("from", "-7d"), ("limit", "100")] := by decide

example : (NextDNS.buildAnalyticsQuery (some ⟨"", "", -1, "", ""⟩)).hasKey "limit" = false := by
  decide
